import Mathlib

/-!
Verification of the provider health-monitoring subsystem of
`service-provider-manager` (package `internal/healthcheck`, file
`monitor.go`, with its collaborators from `internal/store` and
`internal/store/model`).

Shallow embedding conventions:
* `time.Time` and `time.Duration` are `Int` (nanoseconds); `time.Add`
  is integer addition.  `math.Pow(2, e)` for an integer `0 ≤ e ≤ 10`
  is exact in float64, and multiplying the float64 image of an int64
  in range by that power of two and truncating back is exact as long
  as the product stays below 2^63, so the backoff arithmetic of
  `CalculateNextCheckTime` is embedded as exact integer arithmetic.
* Wall-clock reads (`time.Now()`) become explicit `now` parameters.
* The network is an environment `env : String → ProbeOutcome` giving
  the outcome of an HTTP GET against each URL.
* The persistent store is an association list from provider id to
  record; `context.Context` cancellation is an explicit observation
  function `ctxDoneAt : Nat → Bool` telling whether the context is
  already cancelled when the scan reaches its i-th provider.
-/

namespace SPM

/-- `model.HealthStatus` (`internal/store/model`): the enum has exactly
the two constants `HealthStatusReady = "ready"` and
`HealthStatusNotReady = "not_ready"`. -/
inductive HealthStatus where
  | ready
  | notReady
  deriving DecidableEq, Repr

/-- The health-relevant fields of `model.Provider`
(`internal/store/model`): id, name, endpoint, `HealthStatus`,
`ConsecutiveFailures int`, `NextHealthCheck *time.Time`.
Ids are embedded as `Nat` (UUIDs are opaque identifiers). -/
structure Provider where
  id : Nat
  name : String
  endpoint : String
  healthStatus : HealthStatus
  consecutiveFailures : Int
  nextHealthCheck : Option Int
  deriving DecidableEq, Repr

/-- The configuration fields of `healthcheck.Monitor` (`monitor.go`):
`interval`, `maxConsecutiveFailures`, `baseBackoffInterval`,
`maxBackoffInterval`.  Durations are `Int` nanoseconds, the failure
threshold is a Go `int`. -/
structure Monitor where
  interval : Int
  maxConsecutiveFailures : Int
  baseBackoffInterval : Int
  maxBackoffInterval : Int
  deriving DecidableEq, Repr

/-- `Monitor.CalculateNextCheckTime` (monitor.go:150-173).
Ready providers are rechecked after the steady `interval`; NotReady
providers get exponential backoff: the exponent
`consecutiveFailures - maxConsecutiveFailures` is clamped below at 0
and above at the constant `maxExponent = 10`, the delay is
`baseBackoffInterval * 2^exponent` capped at `maxBackoffInterval`. -/
def Monitor.CalculateNextCheckTime (m : Monitor) (now : Int)
    (status : HealthStatus) (consecutiveFailures : Int) : Int :=
  if status = HealthStatus.ready then
    now + m.interval
  else
    let exponent := consecutiveFailures - m.maxConsecutiveFailures
    let exponent := if exponent < 0 then 0 else exponent
    let exponent := if exponent > 10 then 10 else exponent
    let backoffDuration := m.baseBackoffInterval * 2 ^ exponent.toNat
    let backoffDuration :=
      if backoffDuration > m.maxBackoffInterval then m.maxBackoffInterval
      else backoffDuration
    now + backoffDuration

/-- The triple of health fields written back by the Monitor for one
provider: arguments of `store.UpdateHealthStatus` in
`checkProvider` (monitor.go:112). -/
structure HealthUpdate where
  status : HealthStatus
  consecutiveFailures : Int
  nextCheck : Int
  deriving DecidableEq, Repr

/-- The pure state-update step of `Monitor.checkProvider`
(monitor.go:96-111), given the probe result `healthy`:
on success status becomes Ready with 0 failures; on failure the count
is incremented and the status flips to NotReady only once the new
count reaches `maxConsecutiveFailures`, otherwise it keeps the
provider's previous status.  The next check time is computed from the
new status and new count. -/
def Monitor.checkProviderUpdate (m : Monitor) (now : Int)
    (p : Provider) (healthy : Bool) : HealthUpdate :=
  let sc : HealthStatus × Int :=
    if healthy then
      (HealthStatus.ready, 0)
    else
      let consecutiveFailures := p.consecutiveFailures + 1
      let newStatus :=
        if consecutiveFailures ≥ m.maxConsecutiveFailures then
          HealthStatus.notReady
        else
          p.healthStatus
      (newStatus, consecutiveFailures)
  { status := sc.1
    consecutiveFailures := sc.2
    nextCheck := m.CalculateNextCheckTime now sc.1 sc.2 }

/-- Outcome of attempting an HTTP GET against one URL
(`performHealthCheck`, monitor.go:122-143): the request constructor
can fail, the round trip can fail (DNS failure, connection refused,
timeout — `httpClient.Do` returns an error), or a response with some
status code is received. -/
inductive ProbeOutcome where
  | requestError
  | transportError
  | response (statusCode : Int)
  deriving DecidableEq, Repr

/-- `strings.TrimRight(endpoint, "/")` (monitor.go:123): remove all
trailing `'/'` characters. -/
def stripTrailingSlashes (s : String) : String :=
  String.mk ((s.data.reverse.dropWhile (fun c => c == '/')).reverse)

/-- The probe URL built by `performHealthCheck` (monitor.go:123):
`strings.TrimRight(provider.Endpoint, "/") + "/health"`. -/
def healthURL (endpoint : String) : String :=
  stripTrailingSlashes endpoint ++ "/health"

/-- `Monitor.performHealthCheck` (monitor.go:122-143): issue a GET
against the provider's health URL and reduce the outcome to a
boolean — `false` on request-construction error, `false` on transport
error, `true` iff a response arrives with status code in [200,300).
Every branch returns a boolean; no error propagates to the caller. -/
def performHealthCheck (env : String → ProbeOutcome) (p : Provider) : Bool :=
  match env (healthURL p.endpoint) with
  | ProbeOutcome.requestError => false
  | ProbeOutcome.transportError => false
  | ProbeOutcome.response code =>
      if code ≥ 200 ∧ code < 300 then true else false

/-- Whether a provider is due for a probe at time `now`: the filter
condition of `mockProviderStore.ListProvidersForHealthCheck` in the
healthcheck test suite, `p.NextHealthCheck == nil ||
!p.NextHealthCheck.After(now)` (the SQL-backed implementation of the
store interface is not part of the sources; the store's own tests
assert exactly this boundary behaviour). -/
def dueForHealthCheck (now : Int) (p : Provider) : Bool :=
  match p.nextHealthCheck with
  | none => true
  | some t => !(now < t : Bool)

/-- `ListProvidersForHealthCheck` over an in-memory provider list: keep
exactly the providers satisfying `dueForHealthCheck`
(mockProviderStore in the healthcheck test suite appends each such
provider in order). -/
def ListProvidersForHealthCheck (providers : List Provider) (now : Int) :
    List Provider :=
  providers.filter (dueForHealthCheck now)

/-- The Provider Directory: provider records keyed by id.  The store
layer is embedded as an association list. -/
abbrev Directory := List (Nat × Provider)

/-- The record rewrite `UpdateHealthStatus` performs on the row it
matches: replace exactly the three health fields, leaving id, name,
endpoint and all other columns alone. -/
def setHealthFields (r : Provider) (status : HealthStatus)
    (consecutiveFailures : Int) (nextCheck : Int) : Provider :=
  { r with
      healthStatus := status
      consecutiveFailures := consecutiveFailures
      nextHealthCheck := some nextCheck }

/-- Modelled from the spec: `updateHealthStatus(id, status,
consecutiveFailures, nextCheck) -> success|NotFoundError`, the
Directory operation consumed by the Monitor whose SQL-backed
implementation is absent from the sources (its tests in
`internal/store/provider_test.go` assert the atomic three-field
update and `ErrProviderNotFound` for a missing id).  If the id is
present the three health fields of its record are replaced, otherwise
the not-found error is returned and nothing changes. -/
def UpdateHealthStatus (dir : Directory) (id : Nat) (status : HealthStatus)
    (consecutiveFailures : Int) (nextCheck : Int) : Except Unit Directory :=
  if (dir.lookup id).isSome then
    Except.ok (dir.map (fun e =>
      if e.1 = id then (e.1, setHealthFields e.2 status consecutiveFailures nextCheck)
      else e))
  else
    Except.error ()

/-- `Monitor.checkProvider` (monitor.go:96-120) acting on the
Directory: probe the provider, compute the new health fields, attempt
the store update; an update error is logged and the provider is
skipped — the Directory is left as it was and no retry happens. -/
def Monitor.checkProvider (m : Monitor) (env : String → ProbeOutcome)
    (now : Int) (dir : Directory) (p : Provider) : Directory :=
  let healthy := performHealthCheck env p
  let u := m.checkProviderUpdate now p healthy
  match UpdateHealthStatus dir p.id u.status u.consecutiveFailures u.nextCheck with
  | Except.ok dir2 => dir2
  | Except.error _ => dir

/-- The provider loop of `Monitor.CheckProviders` (monitor.go:86-93)
over an already-fetched snapshot, starting at slot `i`: before each
provider the `select` observes only `ctx.Done()` (`ctxDoneAt i`) — the
stop channel is not among its cases — and returns if the context is
cancelled, otherwise `checkProvider` runs.  Returns the final
Directory and the ids of the providers actually probed, in order.
The code re-reads the wall clock inside each `checkProvider`; the
embedding uses the single scan time `now` for every slot, which no
settled property depends on. -/
def Monitor.scanFrom (m : Monitor) (env : String → ProbeOutcome) (now : Int)
    (ctxDoneAt : Nat → Bool) (i : Nat) (dir : Directory) :
    List Provider → Directory × List Nat
  | [] => (dir, [])
  | p :: rest =>
      if ctxDoneAt i then (dir, [])
      else
        let dir2 := m.checkProvider env now dir p
        let res := m.scanFrom env now ctxDoneAt (i + 1) dir2 rest
        (res.1, p.id :: res.2)

/-- `Monitor.CheckProviders` (monitor.go:78-94): take the due-set
snapshot of the Directory at scan time `now`, then probe and update
each member sequentially. -/
def Monitor.CheckProviders (m : Monitor) (env : String → ProbeOutcome)
    (now : Int) (ctxDoneAt : Nat → Bool) (dir : Directory) :
    Directory × List Nat :=
  m.scanFrom env now ctxDoneAt 0 dir
    (ListProvidersForHealthCheck (dir.map Prod.snd) now)

/-- One arrival observed by the `select` of `Monitor.run`
(monitor.go:65-74): context cancellation, the stop channel closed by
`Stop`, or a ticker tick carrying the wall-clock time of the scan it
triggers. -/
inductive LoopEvent where
  | ctxDone
  | stopSignal
  | tick (now : Int)
  deriving DecidableEq, Repr

/-- Whether a loop event is one of the two shutdown signals. -/
def LoopEvent.isShutdown : LoopEvent → Bool
  | LoopEvent.ctxDone => true
  | LoopEvent.stopSignal => true
  | LoopEvent.tick _ => false

/-- The `for`/`select` loop of `Monitor.run` (monitor.go:65-74) over
the sequence of arrivals it observes: a shutdown event makes it
return at once; a tick runs `CheckProviders` to completion (the scan
is not interrupted between events) and the loop continues.  Returns
the probed-id list of every scan started, in order, and the final
Directory. -/
def Monitor.runLoop (m : Monitor) (env : String → ProbeOutcome)
    (dir : Directory) : List LoopEvent → List (List Nat) × Directory
  | [] => ([], dir)
  | LoopEvent.ctxDone :: _ => ([], dir)
  | LoopEvent.stopSignal :: _ => ([], dir)
  | LoopEvent.tick now :: rest =>
      let scan := m.CheckProviders env now (fun _ => false) dir
      let res := m.runLoop env scan.1 rest
      (scan.2 :: res.1, res.2)

/-- `Monitor.run` (monitor.go:56-75): one scan immediately on start,
then the event loop. -/
def Monitor.run (m : Monitor) (env : String → ProbeOutcome) (now0 : Int)
    (dir : Directory) (events : List LoopEvent) :
    List (List Nat) × Directory :=
  let scan0 := m.CheckProviders env now0 (fun _ => false) dir
  let res := m.runLoop env scan0.1 events
  (scan0.2 :: res.1, res.2)

/-- The probes started during one scan of a snapshot, as a function of
both shutdown signals: `CheckProviders`' per-provider `select`
(monitor.go:87-92) has cases only for `ctx.Done()` and `default`, so
the stop channel state `stopSignalledAt` is not consulted — only the
context observation `ctxDoneAt` gates each probe. -/
def Monitor.probesStartedInScan (m : Monitor) (env : String → ProbeOutcome)
    (now : Int) (ctxDoneAt : Nat → Bool) (stopSignalledAt : Nat → Bool)
    (dir : Directory) (snapshot : List Provider) : List Nat :=
  let _ := stopSignalledAt
  (m.scanFrom env now ctxDoneAt 0 dir snapshot).2

/-- The configuration of `testHealthCheckConfig` in the healthcheck
test suite, in seconds: interval 10s, maxConsecutiveFailures 3,
baseBackoffInterval 10s, maxBackoffInterval 5min. -/
def testConfig : Monitor :=
  { interval := 10
    maxConsecutiveFailures := 3
    baseBackoffInterval := 10
    maxBackoffInterval := 300 }

/-- A network in which every probe fails at transport level. -/
def envAllDown : String → ProbeOutcome :=
  fun _ => ProbeOutcome.transportError

/-- Sample provider records for concrete instantiations. -/
def sampleProviderA : Provider :=
  { id := 1
    name := "alpha"
    endpoint := "http://alpha.example"
    healthStatus := HealthStatus.ready
    consecutiveFailures := 0
    nextHealthCheck := none }

def sampleProviderB : Provider :=
  { id := 2
    name := "beta"
    endpoint := "http://beta.example"
    healthStatus := HealthStatus.ready
    consecutiveFailures := 1
    nextHealthCheck := none }

/-! ## Helper lemmas -/

theorem calcNextCheck_notReady (m : Monitor) (now cf : Int) :
    m.CalculateNextCheckTime now HealthStatus.notReady cf =
      now + min (m.baseBackoffInterval *
          2 ^ (min (max (cf - m.maxConsecutiveFailures) 0) 10).toNat)
        m.maxBackoffInterval := by
  have h1 : (HealthStatus.notReady = HealthStatus.ready) = False := by simp
  simp only [Monitor.CalculateNextCheckTime, h1, if_false]
  have hE : (if (if cf - m.maxConsecutiveFailures < 0 then 0
        else cf - m.maxConsecutiveFailures) > 10 then 10
        else (if cf - m.maxConsecutiveFailures < 0 then 0
          else cf - m.maxConsecutiveFailures)) =
      min (max (cf - m.maxConsecutiveFailures) 0) 10 := by
    simp only [Int.min_def, Int.max_def]
    split_ifs <;> omega
  rw [hE]
  have hB : ∀ b c : Int, (if b > c then c else b) = min b c := by
    intro b c
    simp only [Int.min_def]
    split_ifs <;> omega
  rw [hB]

/-! ## C4: Ready providers are rechecked at the steady interval -/

/-- C4: for every time `now` and every failure count, if the status is
READY then `CalculateNextCheckTime(now, READY, consecutiveFailures)`
is `now + interval`, independent of the failure count — no backoff
applies while healthy. -/
theorem ready_next_check_is_interval (m : Monitor) (now : Int)
    (consecutiveFailures : Int) :
    m.CalculateNextCheckTime now HealthStatus.ready consecutiveFailures =
      now + m.interval := by
  simp [Monitor.CalculateNextCheckTime]

/-! ## C2: a successful probe recovers instantly -/

/-- C2: for every due provider whose probe succeeds, the Monitor's
update step sets the new status to READY and the new
consecutive-failure count to 0, regardless of prior status and prior
count — instant recovery, with no recovery-streak requirement. -/
theorem success_resets_provider (m : Monitor) (now : Int) (p : Provider) :
    (m.checkProviderUpdate now p true).status = HealthStatus.ready ∧
    (m.checkProviderUpdate now p true).consecutiveFailures = 0 :=
  ⟨rfl, rfl⟩

/-! ## C1: a failed probe increments the count and flips at threshold -/

/-- C1: for every due provider whose probe fails, the update step sets
the new count to the old count plus one, sets the status to NOT_READY
exactly when the new count reaches `maxConsecutiveFailures` and
otherwise leaves the status unchanged; in particular a READY provider
becomes NOT_READY iff the new count is at least the threshold (it
stays READY below it). -/
theorem failed_probe_update (m : Monitor) (now : Int) (p : Provider) :
    (m.checkProviderUpdate now p false).consecutiveFailures =
      p.consecutiveFailures + 1 ∧
    (m.checkProviderUpdate now p false).status =
      (if p.consecutiveFailures + 1 ≥ m.maxConsecutiveFailures then
        HealthStatus.notReady
       else p.healthStatus) ∧
    (p.healthStatus = HealthStatus.ready →
      ((m.checkProviderUpdate now p false).status = HealthStatus.notReady ↔
        p.consecutiveFailures + 1 ≥ m.maxConsecutiveFailures)) := by
  refine ⟨rfl, rfl, ?_⟩
  intro hready
  by_cases h : p.consecutiveFailures + 1 ≥ m.maxConsecutiveFailures
  · simp [Monitor.checkProviderUpdate, h]
  · simp [Monitor.checkProviderUpdate, h, hready]

/-- Witness for C1 at the test configuration: a READY provider with 1
prior failure that fails again reaches count 2 and stays READY (below
the threshold of 3). -/
theorem failed_probe_update_witness :
    (testConfig.checkProviderUpdate 0 sampleProviderB false).consecutiveFailures =
      sampleProviderB.consecutiveFailures + 1 ∧
    (testConfig.checkProviderUpdate 0 sampleProviderB false).status =
      (if sampleProviderB.consecutiveFailures + 1 ≥
          testConfig.maxConsecutiveFailures then HealthStatus.notReady
       else sampleProviderB.healthStatus) ∧
    (sampleProviderB.healthStatus = HealthStatus.ready →
      ((testConfig.checkProviderUpdate 0 sampleProviderB false).status =
          HealthStatus.notReady ↔
        sampleProviderB.consecutiveFailures + 1 ≥
          testConfig.maxConsecutiveFailures)) :=
  failed_probe_update testConfig 0 sampleProviderB

/-! ## C9: persisted records are internally consistent -/

/-- C9 (implicit invariant): when `maxConsecutiveFailures ≥ 1` and the
stored failure count is non-negative, every record the Monitor
persists is internally consistent — a READY record carries a count
strictly below the threshold and a NOT_READY record carries a count
of at least 1. -/
theorem persisted_record_consistent (m : Monitor) (now : Int) (p : Provider)
    (healthy : Bool) (hmax : 1 ≤ m.maxConsecutiveFailures)
    (hcf : 0 ≤ p.consecutiveFailures) :
    ((m.checkProviderUpdate now p healthy).status = HealthStatus.ready →
      (m.checkProviderUpdate now p healthy).consecutiveFailures <
        m.maxConsecutiveFailures) ∧
    ((m.checkProviderUpdate now p healthy).status = HealthStatus.notReady →
      1 ≤ (m.checkProviderUpdate now p healthy).consecutiveFailures) := by
  cases healthy with
  | true =>
      constructor
      · intro _
        simpa [Monitor.checkProviderUpdate] using hmax
      · intro hst
        simp [Monitor.checkProviderUpdate] at hst
  | false =>
      by_cases h : p.consecutiveFailures + 1 ≥ m.maxConsecutiveFailures
      · constructor
        · intro hst
          simp [Monitor.checkProviderUpdate, h] at hst
        · intro _
          simp [Monitor.checkProviderUpdate, h]
          omega
      · constructor
        · intro _
          simp [Monitor.checkProviderUpdate, h]
          omega
        · intro _
          simp [Monitor.checkProviderUpdate, h]
          omega

/-- Witness for C9: the test configuration (threshold 3) and a READY
provider at 1 prior failure whose probe fails. -/
theorem persisted_record_consistent_witness :
    (1 : Int) ≤ testConfig.maxConsecutiveFailures ∧
    (0 : Int) ≤ sampleProviderB.consecutiveFailures ∧
    (((testConfig.checkProviderUpdate 0 sampleProviderB false).status =
        HealthStatus.ready →
      (testConfig.checkProviderUpdate 0 sampleProviderB false).consecutiveFailures <
        testConfig.maxConsecutiveFailures) ∧
     ((testConfig.checkProviderUpdate 0 sampleProviderB false).status =
        HealthStatus.notReady →
      1 ≤ (testConfig.checkProviderUpdate 0 sampleProviderB false).consecutiveFailures)) :=
  ⟨by decide, by decide,
    persisted_record_consistent testConfig 0 sampleProviderB false
      (by decide) (by decide)⟩

/-! ## C3: exponential backoff for NOT_READY providers -/

/-- C3 counterexample: the claim says that at `k = 0` (failure count
exactly at the threshold) the delay equals `baseBackoffInterval`
exactly, but the code caps every backoff at `maxBackoffInterval`; with
base 20 and cap 10 the scheduled delay is 10, not 20. -/
theorem backoff_at_threshold_counterexample :
    ({ interval := 10
       maxConsecutiveFailures := 3
       baseBackoffInterval := 20
       maxBackoffInterval := 10 } : Monitor).CalculateNextCheckTime 0
        HealthStatus.notReady 3 ≠
      0 + (20 : Int) := by
  decide

/-- C3 amended: for every `now` and every `k ≥ 0`, the NOT_READY
schedule at failure count `maxConsecutiveFailures + k` is
`now + min(baseBackoffInterval * 2^min(k,10), maxBackoffInterval)`;
for `k ≥ 10` the exponent is clamped to 10, giving
`now + min(baseBackoffInterval * 2^10, maxBackoffInterval)`; at
`k = 0` the delay is `min(baseBackoffInterval, maxBackoffInterval)`,
which equals `baseBackoffInterval` exactly whenever
`baseBackoffInterval ≤ maxBackoffInterval`. -/
theorem backoff_formula (m : Monitor) (now k : Int) (hk : 0 ≤ k) :
    m.CalculateNextCheckTime now HealthStatus.notReady
        (m.maxConsecutiveFailures + k) =
      now + min (m.baseBackoffInterval * 2 ^ (min k 10).toNat)
        m.maxBackoffInterval ∧
    (10 ≤ k →
      m.CalculateNextCheckTime now HealthStatus.notReady
          (m.maxConsecutiveFailures + k) =
        now + min (m.baseBackoffInterval * 2 ^ (10 : Nat))
          m.maxBackoffInterval) ∧
    (k = 0 →
      m.CalculateNextCheckTime now HealthStatus.notReady
          (m.maxConsecutiveFailures + k) =
        now + min m.baseBackoffInterval m.maxBackoffInterval) ∧
    (k = 0 → m.baseBackoffInterval ≤ m.maxBackoffInterval →
      m.CalculateNextCheckTime now HealthStatus.notReady
          (m.maxConsecutiveFailures + k) =
        now + m.baseBackoffInterval) := by
  have hmain :
      m.CalculateNextCheckTime now HealthStatus.notReady
          (m.maxConsecutiveFailures + k) =
        now + min (m.baseBackoffInterval * 2 ^ (min k 10).toNat)
          m.maxBackoffInterval := by
    rw [calcNextCheck_notReady]
    have h1 : max (m.maxConsecutiveFailures + k - m.maxConsecutiveFailures) 0 = k := by
      omega
    rw [h1]
  refine ⟨hmain, ?_, ?_, ?_⟩
  · intro h10
    rw [hmain]
    have : (min k 10).toNat = 10 := by omega
    rw [this]
  · intro hk0
    rw [hmain, hk0]
    norm_num
  · intro hk0 hle
    rw [hmain, hk0]
    simp [min_eq_left hle]

/-- Witness for C3 amended at the test configuration (base 10s, cap
5min) with `k = 1` (four consecutive failures): delay 20s. -/
theorem backoff_formula_witness :
    (0 : Int) ≤ 1 ∧
    testConfig.CalculateNextCheckTime 0 HealthStatus.notReady
        (testConfig.maxConsecutiveFailures + 1) =
      0 + min (testConfig.baseBackoffInterval * 2 ^ (min (1 : Int) 10).toNat)
        testConfig.maxBackoffInterval :=
  ⟨by decide, (backoff_formula testConfig 0 1 (by decide)).1⟩

/-! ## C10: the backoff schedule is monotone in the failure count -/

/-- C10 (implicit): for a fixed time and configuration with a
non-negative base backoff interval, `CalculateNextCheckTime` for a
NOT_READY provider is monotone non-decreasing in the failure count —
more consecutive failures never schedule an earlier recheck. -/
theorem backoff_monotone (m : Monitor) (now f1 f2 : Int)
    (hbase : 0 ≤ m.baseBackoffInterval) (h : f1 ≤ f2) :
    m.CalculateNextCheckTime now HealthStatus.notReady f1 ≤
      m.CalculateNextCheckTime now HealthStatus.notReady f2 := by
  rw [calcNextCheck_notReady, calcNextCheck_notReady]
  have hE : (min (max (f1 - m.maxConsecutiveFailures) 0) 10).toNat ≤
      (min (max (f2 - m.maxConsecutiveFailures) 0) 10).toNat := by
    omega
  have hpow : (2 : Int) ^ (min (max (f1 - m.maxConsecutiveFailures) 0) 10).toNat ≤
      2 ^ (min (max (f2 - m.maxConsecutiveFailures) 0) 10).toNat :=
    pow_le_pow_right₀ (by norm_num) hE
  have hmul : m.baseBackoffInterval *
      2 ^ (min (max (f1 - m.maxConsecutiveFailures) 0) 10).toNat ≤
      m.baseBackoffInterval *
      2 ^ (min (max (f2 - m.maxConsecutiveFailures) 0) 10).toNat :=
    mul_le_mul_of_nonneg_left hpow hbase
  exact add_le_add_left (min_le_min hmul le_rfl) now

/-- Witness for C10: at the test configuration, 4 failures schedule no
earlier than 3 failures. -/
theorem backoff_monotone_witness :
    (0 : Int) ≤ testConfig.baseBackoffInterval ∧
    (3 : Int) ≤ 4 ∧
    testConfig.CalculateNextCheckTime 0 HealthStatus.notReady 3 ≤
      testConfig.CalculateNextCheckTime 0 HealthStatus.notReady 4 :=
  ⟨by decide, by decide,
    backoff_monotone testConfig 0 3 4 (by decide) (by decide)⟩

/-! ## C5: the liveness probe reduces every outcome to a boolean -/

/-- C5: the probe reports healthy iff an HTTP response is received for
GET on the provider's health URL (trailing slashes stripped, then
`/health` appended) with a status code in [200,300); every
request-construction error, transport error and out-of-range status
code yields `false`.  The probe is a total boolean function — no error
propagates past it. -/
theorem probe_healthy_iff (env : String → ProbeOutcome) (p : Provider) :
    performHealthCheck env p = true ↔
      ∃ code : Int, env (healthURL p.endpoint) = ProbeOutcome.response code ∧
        200 ≤ code ∧ code < 300 := by
  unfold performHealthCheck
  rcases hE : env (healthURL p.endpoint) with _ | _ | code
  · simp
  · simp
  · by_cases hc : code ≥ 200 ∧ code < 300
    · simp only [hc, if_true]
      constructor
      · intro _
        exact ⟨code, rfl, hc.1, hc.2⟩
      · intro _
        rfl
    · simp only [hc, if_false]
      constructor
      · intro hfalse
        exact absurd hfalse (by simp)
      · rintro ⟨c, hcode, h200, h300⟩
        cases hcode
        exact absurd ⟨h200, h300⟩ hc

/-! ## C6: the due-set boundary is inclusive -/

theorem dueForHealthCheck_iff (now : Int) (p : Provider) :
    dueForHealthCheck now p = true ↔
      p.nextHealthCheck = none ∨
        ∃ t, p.nextHealthCheck = some t ∧ t ≤ now := by
  unfold dueForHealthCheck
  cases hnc : p.nextHealthCheck with
  | none => simp
  | some t => simp [not_lt]

/-- C6: a provider is in the due-set returned by
`ListProvidersForHealthCheck(now)` iff it is stored and its
`next_health_check` is null or at most `now` — the boundary is
inclusive, and a strictly future check time excludes the provider. -/
theorem due_set_membership (providers : List Provider) (now : Int)
    (p : Provider) :
    p ∈ ListProvidersForHealthCheck providers now ↔
      p ∈ providers ∧
        (p.nextHealthCheck = none ∨
          ∃ t, p.nextHealthCheck = some t ∧ t ≤ now) := by
  rw [ListProvidersForHealthCheck, List.mem_filter, dueForHealthCheck_iff]

/-! ## C8: one provider's persistence error never aborts the scan -/

theorem lookup_update_map (dir : Directory) (id : Nat) (st : HealthStatus)
    (cf nc : Int) (q : Nat) :
    (dir.map (fun e =>
        if e.1 = id then (e.1, setHealthFields e.2 st cf nc) else e)).lookup q =
      if q = id then (dir.lookup q).map (fun r => setHealthFields r st cf nc)
      else dir.lookup q := by
  induction dir with
  | nil => simp [List.lookup]
  | cons e t ih =>
      obtain ⟨k, v⟩ := e
      by_cases hk : k = id
      · subst hk
        by_cases hq : q = k
        · subst hq
          simp [List.lookup_cons]
        · simp [List.lookup_cons, beq_false_of_ne hq, hq, ih]
      · by_cases hq : q = k
        · subst hq
          have hqid : q ≠ id := hk
          simp [List.lookup_cons, hk, hqid]
        · simp [List.lookup_cons, beq_false_of_ne hq, hk, ih]

theorem checkProvider_lookup_other (m : Monitor) (env : String → ProbeOutcome)
    (now : Int) (dir : Directory) (p : Provider) (q : Nat) (h : q ≠ p.id) :
    (m.checkProvider env now dir p).lookup q = dir.lookup q := by
  unfold Monitor.checkProvider UpdateHealthStatus
  rcases hg : dir.lookup p.id with _ | r
  · simp [hg]
  · simp only [hg, Option.isSome_some, if_true]
    rw [lookup_update_map, if_neg h]

theorem checkProvider_lookup_self (m : Monitor) (env : String → ProbeOutcome)
    (now : Int) (dir : Directory) (p : Provider) (r : Provider)
    (hr : dir.lookup p.id = some r) :
    (m.checkProvider env now dir p).lookup p.id =
      some (setHealthFields r
        (m.checkProviderUpdate now p (performHealthCheck env p)).status
        (m.checkProviderUpdate now p (performHealthCheck env p)).consecutiveFailures
        (m.checkProviderUpdate now p (performHealthCheck env p)).nextCheck) := by
  unfold Monitor.checkProvider UpdateHealthStatus
  have hg : (dir.lookup p.id).isSome := by rw [hr]; rfl
  simp only [hg, if_true]
  rw [lookup_update_map, if_pos rfl, hr]
  rfl

theorem checkProvider_absent (m : Monitor) (env : String → ProbeOutcome)
    (now : Int) (dir : Directory) (p : Provider)
    (h : dir.lookup p.id = none) :
    m.checkProvider env now dir p = dir := by
  unfold Monitor.checkProvider UpdateHealthStatus
  simp [h]

theorem scanFrom_no_cancel (m : Monitor) (env : String → ProbeOutcome)
    (now : Int) (ps : List Provider) (i : Nat) (dir : Directory) :
    m.scanFrom env now (fun _ => false) i dir ps =
      (ps.foldl (fun d p => m.checkProvider env now d p) dir,
       ps.map Provider.id) := by
  induction ps generalizing i dir with
  | nil => rfl
  | cons p t ih => simp [Monitor.scanFrom, ih]

theorem foldl_checkProvider_lookup_other (m : Monitor)
    (env : String → ProbeOutcome) (now : Int) (ps : List Provider)
    (dir : Directory) (q : Nat) (h : ∀ p ∈ ps, p.id ≠ q) :
    (ps.foldl (fun d p => m.checkProvider env now d p) dir).lookup q =
      dir.lookup q := by
  induction ps generalizing dir with
  | nil => rfl
  | cons p t ih =>
      rw [List.foldl_cons,
        ih _ (fun p2 hp2 => h p2 (List.mem_cons_of_mem _ hp2)),
        checkProvider_lookup_other]
      exact fun he => h p (List.mem_cons_self p t) he.symm

/-- C8: for any scan snapshot with distinct ids and any Directory
state, every snapshot member is probed exactly once and in order
(independently of any update failures); an update against a provider
that no longer exists leaves the Directory untouched (the error is
only logged, with no retry in the scan); and every snapshot member
that still exists in the Directory — in particular every one other
than a concurrently deleted provider — ends up with its three health
fields updated. -/
theorem scan_isolation (m : Monitor) (env : String → ProbeOutcome)
    (now : Int) (dir : Directory) (snapshot : List Provider)
    (hnodup : (snapshot.map Provider.id).Nodup)
    (q : Provider) (hq : q ∈ snapshot) (r : Provider)
    (hr : dir.lookup q.id = some r) :
    (m.scanFrom env now (fun _ => false) 0 dir snapshot).2 =
      snapshot.map Provider.id ∧
    (∀ (d : Directory) (p : Provider), d.lookup p.id = none →
      m.checkProvider env now d p = d) ∧
    (m.scanFrom env now (fun _ => false) 0 dir snapshot).1.lookup q.id =
      some (setHealthFields r
        (m.checkProviderUpdate now q (performHealthCheck env q)).status
        (m.checkProviderUpdate now q (performHealthCheck env q)).consecutiveFailures
        (m.checkProviderUpdate now q (performHealthCheck env q)).nextCheck) := by
  refine ⟨by rw [scanFrom_no_cancel],
    fun d p hp => checkProvider_absent m env now d p hp, ?_⟩
  obtain ⟨l1, l2, rfl⟩ := List.append_of_mem hq
  rw [scanFrom_no_cancel]
  have hnd : (l1.map Provider.id).Nodup ∧
      ((q :: l2).map Provider.id).Nodup ∧
      (l1.map Provider.id).Disjoint ((q :: l2).map Provider.id) := by
    rw [List.map_append] at hnodup
    exact List.nodup_append.mp hnodup
  have hq1 : ∀ p ∈ l1, p.id ≠ q.id := by
    intro p hp he
    exact hnd.2.2 (List.mem_map_of_mem Provider.id hp)
      (he ▸ List.mem_cons_self q.id (l2.map Provider.id))
  have hq2 : ∀ p ∈ l2, p.id ≠ q.id := by
    intro p hp he
    have := (List.nodup_cons.mp hnd.2.1).1
    exact this (he ▸ List.mem_map_of_mem Provider.id hp)
  rw [List.foldl_append, List.foldl_cons]
  rw [foldl_checkProvider_lookup_other m env now l2 _ q.id hq2]
  have hr1 : (l1.foldl (fun d p => m.checkProvider env now d p) dir).lookup q.id =
      some r := by
    rw [foldl_checkProvider_lookup_other m env now l1 dir q.id hq1, hr]
  exact checkProvider_lookup_self m env now _ q r hr1

/-- Witness for C8: provider alpha was deleted from the Directory
after the snapshot was taken; beta is still probed and its record is
still updated. -/
theorem scan_isolation_witness :
    ([sampleProviderA, sampleProviderB].map Provider.id).Nodup ∧
    sampleProviderB ∈ [sampleProviderA, sampleProviderB] ∧
    ([(2, sampleProviderB)] : Directory).lookup sampleProviderB.id =
      some sampleProviderB ∧
    ((testConfig.scanFrom envAllDown 0 (fun _ => false) 0
        [(2, sampleProviderB)] [sampleProviderA, sampleProviderB]).2 =
      [sampleProviderA, sampleProviderB].map Provider.id ∧
    (∀ (d : Directory) (p : Provider), d.lookup p.id = none →
      testConfig.checkProvider envAllDown 0 d p = d) ∧
    (testConfig.scanFrom envAllDown 0 (fun _ => false) 0
        [(2, sampleProviderB)] [sampleProviderA, sampleProviderB]).1.lookup
        sampleProviderB.id =
      some (setHealthFields sampleProviderB
        (testConfig.checkProviderUpdate 0 sampleProviderB
          (performHealthCheck envAllDown sampleProviderB)).status
        (testConfig.checkProviderUpdate 0 sampleProviderB
          (performHealthCheck envAllDown sampleProviderB)).consecutiveFailures
        (testConfig.checkProviderUpdate 0 sampleProviderB
          (performHealthCheck envAllDown sampleProviderB)).nextCheck)) :=
  ⟨by decide, by decide, by decide,
    scan_isolation testConfig envAllDown 0 [(2, sampleProviderB)]
      [sampleProviderA, sampleProviderB] (by decide) sampleProviderB
      (by decide) sampleProviderB (by decide)⟩

/-! ## C7: shutdown signals and the scan loop -/

/-- C7 counterexample: with `Stop` already signalled (`stopSignalledAt`
constantly true) but the context not cancelled, the scan still starts
the probe of the snapshot's provider — the per-provider `select` of
`CheckProviders` has no case for the stop channel, so the claim that
no new probe starts after the shutdown signal is false. -/
theorem shutdown_probe_counterexample :
    testConfig.probesStartedInScan envAllDown 0 (fun _ => false)
        (fun _ => true) [(1, sampleProviderA)] [sampleProviderA] ≠ [] := by
  decide

theorem scanFrom_length_le (m : Monitor) (env : String → ProbeOutcome)
    (now : Int) (ctxDoneAt : Nat → Bool) (ps : List Provider) (i j : Nat)
    (dir : Directory) (hj : ctxDoneAt j = true) (hij : i ≤ j) :
    (m.scanFrom env now ctxDoneAt i dir ps).2.length ≤ j - i := by
  induction ps generalizing i dir with
  | nil => simp [Monitor.scanFrom]
  | cons p t ih =>
      by_cases hi : ctxDoneAt i = true
      · simp [Monitor.scanFrom, hi]
      · have hne : i ≠ j := fun he => hi (he ▸ hj)
        have hrec := ih (i + 1) (m.checkProvider env now dir p) (by omega)
        simp only [Monitor.scanFrom, hi, Bool.false_eq_true, if_false,
          List.length_cons]
        omega

/-- C7 amended: once the run loop's `select` observes a shutdown
signal (context cancelled or stop channel closed) it exits, so the
loop's behaviour — including every scan it starts — is independent of
all events after the first shutdown signal, and the scan triggered by
an earlier tick runs to completion before the loop can exit; within a
scan, once the context is observed cancelled before slot `j`, fewer
than `j` probes have started and no further one does.  The Stop
signal alone, however, does not interrupt the in-progress scan (see
the counterexample). -/
theorem shutdown_amended (m : Monitor) (env : String → ProbeOutcome)
    (dir : Directory) (e1 e2 : List LoopEvent) (s : LoopEvent)
    (hs : s.isShutdown = true) (now : Int)
    (ctxDoneAt stopSignalledAt : Nat → Bool) (dir2 : Directory)
    (snapshot : List Provider) (j : Nat) (hj : ctxDoneAt j = true) :
    m.runLoop env dir (e1 ++ s :: e2) = m.runLoop env dir (e1 ++ [s]) ∧
    (m.probesStartedInScan env now ctxDoneAt stopSignalledAt dir2
        snapshot).length ≤ j := by
  constructor
  · induction e1 generalizing dir with
    | nil =>
        cases s with
        | ctxDone => rfl
        | stopSignal => rfl
        | tick now2 => simp [LoopEvent.isShutdown] at hs
    | cons e t ih =>
        cases e with
        | ctxDone => rfl
        | stopSignal => rfl
        | tick now2 => simp [Monitor.runLoop, ih]
  · have := scanFrom_length_le m env now ctxDoneAt snapshot 0 j dir2 hj
      (Nat.zero_le j)
    simpa [Monitor.probesStartedInScan] using this

/-- Witness for C7 amended: a tick, then Stop, then a late tick that
is never observed; and a scan whose context is cancelled from slot 0
onward starts no probe. -/
theorem shutdown_amended_witness :
    LoopEvent.stopSignal.isShutdown = true ∧
    (fun _ : Nat => true) 0 = true ∧
    (testConfig.runLoop envAllDown []
        ([LoopEvent.tick 0] ++ LoopEvent.stopSignal :: [LoopEvent.tick 1]) =
      testConfig.runLoop envAllDown [] ([LoopEvent.tick 0] ++ [LoopEvent.stopSignal]) ∧
    (testConfig.probesStartedInScan envAllDown 0 (fun _ => true)
        (fun _ => false) [] []).length ≤ 0) :=
  ⟨rfl, rfl,
    shutdown_amended testConfig envAllDown [] [LoopEvent.tick 0]
      [LoopEvent.tick 1] LoopEvent.stopSignal rfl 0 (fun _ => true)
      (fun _ => false) [] [] 0 rfl⟩

end SPM
